import Mathlib

/-!
Shallow embedding of the cyberfly-python-client-sdk dispatch core
(`cyberflySdk/main.py`, `CyberflyClient.on_received`) and sensor registry
(`cyberflySdk/sensors.py`, `SensorManager`), with theorems checking the
natural-language specification against the code.

External collaborators that live outside the embedded sources (the hardware
driver factory from sensor-library-python, the socket transport, the signing
utilities and the authenticator predicates) are modelled as oracles: opaque
data supplied through environment records, never inspected by the embedded
control flow, exactly as the Python code treats them.
-/

namespace Cyberfly

/-- Python `dict` with string keys, modelled as an association list.
Python dicts never hold two bindings for one key; `insert` replaces the
binding in place (keeping its position, as CPython does) and `erase`
removes every binding for the key (there is at most one in any state the
code builds). -/
def Dict (α : Type) : Type := List (String × α)

instance {α : Type} [DecidableEq α] : DecidableEq (Dict α) := by
  unfold Dict; exact inferInstance

def Dict.lookup {α : Type} : Dict α → String → Option α
  | [], _ => none
  | (k', v) :: rest, k => if k' = k then some v else Dict.lookup rest k

def Dict.contains {α : Type} (d : Dict α) (k : String) : Bool :=
  (d.lookup k).isSome

def Dict.insert {α : Type} : Dict α → String → α → Dict α
  | [], k, v => [(k, v)]
  | (k', v') :: rest, k, v =>
      if k' = k then (k, v) :: rest else (k', v') :: Dict.insert rest k v

def Dict.erase {α : Type} (d : Dict α) (k : String) : Dict α :=
  List.filter (fun p => !(p.1 = k : Bool)) d

def Dict.items {α : Type} (d : Dict α) : List (String × α) := d

def Dict.values {α : Type} (d : Dict α) : List α := List.map Prod.snd d

def Dict.size {α : Type} (d : Dict α) : Nat := List.length d

theorem Dict.lookup_insert {α : Type} (d : Dict α) (k k' : String) (v : α) :
    (d.insert k v).lookup k' = if k = k' then some v else d.lookup k' := by
  induction d with
  | nil =>
      by_cases h : k = k' <;> simp [Dict.insert, Dict.lookup, h]
  | cons p rest ih =>
      obtain ⟨pk, pv⟩ := p
      simp only [Dict.insert]
      by_cases hpk : pk = k
      · subst hpk
        by_cases h : pk = k' <;> simp [Dict.lookup, h]
      · simp only [if_neg hpk, Dict.lookup]
        by_cases h : pk = k'
        · subst h
          have hk : ¬ k = pk := fun hh => hpk hh.symm
          simp [hk, hpk]
        · simp [h, ih]

theorem Dict.lookup_erase {α : Type} (d : Dict α) (k k' : String) :
    (d.erase k).lookup k' = if k = k' then none else d.lookup k' := by
  induction d with
  | nil => simp [Dict.erase, Dict.lookup]
  | cons p rest ih =>
      obtain ⟨pk, pv⟩ := p
      simp only [Dict.erase, List.filter] at ih ⊢
      by_cases hpk : pk = k
      · subst hpk
        by_cases h : pk = k'
        · subst h; simp [ih]
        · have hk : ¬ k' = pk := fun hh => h hh.symm
          simp [hk, ih, Dict.lookup, h]
      · have hpk' : ¬ (decide (pk = k) = true) := by simp [hpk]
        simp only [hpk', if_false, decide_eq_true_eq, if_neg hpk, Dict.lookup]
        by_cases h : pk = k'
        · subst h
          have hk : ¬ k = pk := fun hh => hpk hh.symm
          simp [hk]
        · simp [h, ih]

theorem Dict.contains_insert {α : Type} (d : Dict α) (k k' : String) (v : α) :
    (d.insert k v).contains k' = (if k = k' then true else d.contains k') := by
  simp only [Dict.contains, Dict.lookup_insert]
  by_cases h : k = k' <;> simp [h]

theorem Dict.contains_erase {α : Type} (d : Dict α) (k k' : String) :
    (d.erase k).contains k' = (if k = k' then false else d.contains k') := by
  simp only [Dict.contains, Dict.lookup_erase]
  by_cases h : k = k' <;> simp [h]

theorem Dict.erase_erase {α : Type} (d : Dict α) (k : String) :
    (d.erase k).erase k = d.erase k := by
  simp [Dict.erase, List.filter_filter]

/-- Python truthiness of an optional string: `None` and `""` are falsy. -/
def truthyStr : Option String → Bool
  | none => false
  | some s => !(s = "" : Bool)

/-- Python `str(x)` for an optional string field (absent prints as `None`). -/
def pyStr : Option String → String
  | none => "None"
  | some s => s

/-- Opaque sensor input map (`Dict[str, Any]` in the source); the embedded
code never inspects it, only hands it to the driver factory. -/
def Inputs : Type := List (String × String)

instance : DecidableEq Inputs := by unfold Inputs; exact inferInstance

/-- Live hardware handle returned by the external driver factory; opaque to
the embedded code, which only stores it and passes it to read/execute. -/
def SensorInstance : Type := Nat

instance : DecidableEq SensorInstance := by unfold SensorInstance; exact inferInstance

instance (n : Nat) : OfNat SensorInstance n := ⟨show SensorInstance from n⟩

/-- Data map returned by `sensor.read()`. Opaque to the embedded code. -/
def SensorData : Type := List (String × String)

instance : DecidableEq SensorData := by unfold SensorData; exact inferInstance

/-- `sensors.py` dataclass `SensorConfig`. The `alias` field is named
`alias_` because `alias` is a reserved word here. -/
structure SensorConfig where
  sensor_id : String
  sensor_type : String
  inputs : Inputs
  enabled : Bool
  alias_ : Option String
deriving DecidableEq

/-- `sensors.py` dataclass `SensorReading`. Timestamps are abstract ticks
read from the environment instead of wall-clock floats. -/
structure SensorReading where
  sensor_id : String
  sensor_type : String
  data : SensorData
  timestamp : Nat
  status : String
  error : Option String
deriving DecidableEq

/-- Mutable state of `SensorManager`: the live instance table `sensors` and
the configuration table `sensor_configs`. -/
structure SensorManager where
  sensors : Dict SensorInstance
  sensor_configs : Dict SensorConfig
deriving DecidableEq

/-- Observable side effects of a registry operation: an invocation of the
registered config-save hook (with the config list passed to it) or a
log line written by an exception handler. -/
inductive Event where
  | persist (configs : List SensorConfig)
  | logError (msg : String)
deriving DecidableEq

/-- Environment of external collaborators for the sensor registry.
`factory` embeds `sensor_lib.main.create_sensor` (and a failed lazy import
of it) as success-or-exception; `readInstance` embeds `sensor.read()`;
the `has*` fields embed hasattr probes on the opaque instance; `actionRaises`
embeds an exception raised while running a supported capability call;
`hookRegistered`/`hookRaises` describe the registered config-save callback;
`now` is the abstract clock sampled by `time.time()`. -/
structure SensorEnv where
  factory : String → Inputs → Except String SensorInstance
  readInstance : SensorInstance → Except String SensorData
  hasDisplayText : SensorInstance → Bool
  hasAppendText : SensorInstance → Bool
  hasClear : SensorInstance → Bool
  hasDevice : SensorInstance → Bool
  deviceHasToggle : SensorInstance → Bool
  actionRaises : SensorInstance → String → Option String
  hookRegistered : Bool
  hookRaises : Bool
  now : Nat

/-- `SensorManager._persist_configs`: call the save hook when registered,
passing the current config list; an exception from the hook is caught and
logged, and cannot touch the manager state (the function only reads it). -/
def SensorManager.persist_configs (env : SensorEnv) (st : SensorManager) : List Event :=
  if env.hookRegistered then
    if env.hookRaises then
      [Event.persist st.sensor_configs.values,
       Event.logError "Failed to persist sensor configuration"]
    else
      [Event.persist st.sensor_configs.values]
  else
    []

/-- `SensorManager.add_sensor`. A disabled config is stored without touching
hardware (dropping any stale live instance); an enabled config first asks the
driver factory for an instance and stores nothing when that raises, in which
case the exception is caught, logged and reported as `false`. -/
def SensorManager.add_sensor (env : SensorEnv) (st : SensorManager)
    (config : SensorConfig) : Bool × SensorManager × List Event :=
  if !config.enabled then
    (true,
     { sensor_configs := st.sensor_configs.insert config.sensor_id config,
       sensors := st.sensors.erase config.sensor_id },
     [])
  else
    match env.factory config.sensor_type config.inputs with
    | Except.ok inst =>
        (true,
         { sensors := st.sensors.insert config.sensor_id inst,
           sensor_configs := st.sensor_configs.insert config.sensor_id config },
         [])
    | Except.error e =>
        (false, st,
         [Event.logError ("Failed to add sensor " ++ config.sensor_id ++ ": " ++ e)])

/-- `SensorManager.remove_sensor`: delete the instance and the config when
present, then persist; nothing in the body can raise, so it returns `true`. -/
def SensorManager.remove_sensor (env : SensorEnv) (st : SensorManager)
    (sensor_id : String) : Bool × SensorManager × List Event :=
  let st' : SensorManager :=
    { sensors := st.sensors.erase sensor_id,
      sensor_configs := st.sensor_configs.erase sensor_id }
  (true, st', st'.persist_configs env)

/-- `SensorManager.enable_sensor`. The Python code mutates the stored
`SensorConfig` dataclass in place (`config.enabled = True`) before calling
`add_sensor`; the in-place mutation is embedded by re-inserting the updated
record under the same key before the add attempt. Persists only when the
add succeeded. -/
def SensorManager.enable_sensor (env : SensorEnv) (st : SensorManager)
    (sensor_id : String) : Bool × SensorManager × List Event :=
  match st.sensor_configs.lookup sensor_id with
  | some config =>
      let config' := { config with enabled := true }
      let st1 : SensorManager :=
        { st with sensor_configs := st.sensor_configs.insert sensor_id config' }
      let r := st1.add_sensor env config'
      if r.1 then
        (true, r.2.1, r.2.2 ++ r.2.1.persist_configs env)
      else
        (false, r.2.1, r.2.2)
  | none => (false, st, [])

/-- `SensorManager.disable_sensor`: flip the stored config's `enabled` flag
in place, drop the live instance when present, persist, return `true`;
returns `false` when the sensor has no configuration. -/
def SensorManager.disable_sensor (env : SensorEnv) (st : SensorManager)
    (sensor_id : String) : Bool × SensorManager × List Event :=
  match st.sensor_configs.lookup sensor_id with
  | some config =>
      let st' : SensorManager :=
        { sensor_configs := st.sensor_configs.insert sensor_id { config with enabled := false },
          sensors := st.sensors.erase sensor_id }
      (true, st', st'.persist_configs env)
  | none => (false, st, [])

/-- `SensorManager.read_sensor`. The `Except.error` result embeds the one
uncaught exception path: the bare `self.sensor_configs[sensor_id]` lookup
performed outside any try block, which raises `KeyError` when the instance
table holds a sensor the config table does not. Every other failure is
returned as an error-status reading. -/
def SensorManager.read_sensor (env : SensorEnv) (st : SensorManager)
    (sensor_id : String) : Except String SensorReading :=
  if !st.sensors.contains sensor_id then
    Except.ok
      { sensor_id := sensor_id, sensor_type := "unknown", data := [],
        timestamp := env.now, status := "error",
        error := some ("Sensor " ++ sensor_id ++ " not found") }
  else
    match st.sensor_configs.lookup sensor_id with
    | none => Except.error ("KeyError: " ++ sensor_id)
    | some config =>
        if !config.enabled then
          Except.ok
            { sensor_id := sensor_id, sensor_type := config.sensor_type, data := [],
              timestamp := env.now, status := "error",
              error := some ("Sensor " ++ sensor_id ++ " is disabled") }
        else
          match st.sensors.lookup sensor_id with
          | none =>
              -- unreachable given the contains guard; a KeyError here would be
              -- caught by the surrounding try and turned into an error reading
              Except.ok
                { sensor_id := sensor_id, sensor_type := config.sensor_type, data := [],
                  timestamp := env.now, status := "error",
                  error := some ("KeyError: " ++ sensor_id) }
          | some inst =>
              match env.readInstance inst with
              | Except.ok data =>
                  Except.ok
                    { sensor_id := sensor_id, sensor_type := config.sensor_type,
                      data := data, timestamp := env.now, status := "success",
                      error := none }
              | Except.error e =>
                  Except.ok
                    { sensor_id := sensor_id, sensor_type := config.sensor_type,
                      data := [], timestamp := env.now, status := "error",
                      error := some e }

/-- Loop body of `SensorManager.read_all_sensors`: iterate the instance
table, look each id up in the config table (a bare lookup that can raise
`KeyError`, embedded as `Except.error`), and read the enabled ones. -/
def readAllLoop (env : SensorEnv) (st : SensorManager) :
    List (String × SensorInstance) → Except String (List SensorReading)
  | [] => Except.ok []
  | (sid, _) :: rest =>
      match st.sensor_configs.lookup sid with
      | none => Except.error ("KeyError: " ++ sid)
      | some config =>
          if config.enabled then
            match st.read_sensor env sid with
            | Except.ok r =>
                match readAllLoop env st rest with
                | Except.ok rs => Except.ok (r :: rs)
                | Except.error e => Except.error e
            | Except.error e => Except.error e
          else
            readAllLoop env st rest

/-- `SensorManager.read_all_sensors`. -/
def SensorManager.read_all_sensors (env : SensorEnv) (st : SensorManager) :
    Except String (List SensorReading) :=
  readAllLoop env st st.sensors.items

/-- Parameters consumed by `execute_sensor_action` (keys `text`, `clear`,
`value` of the Python params dict; absent keys take defaults at use sites). -/
structure ExecParams where
  text : Option String
  clear : Option Bool
  value : Option Bool
deriving DecidableEq

/-- Result dict of `execute_sensor_action`: either the error shape
`{status, error, timestamp}` or the success shape
`{status, action, params, timestamp}`. -/
structure ExecResult where
  status : String
  error : Option String
  action : Option String
  params : Option ExecParams
  timestamp : Nat
deriving DecidableEq

/-- `SensorManager.execute_sensor_action`. The bare config lookup before the
try block is the one uncaught exception path (`Except.error`); capability
probing (`hasattr`) and the capability call itself are delegated to the
environment oracles. The elif chain over distinct action literals is embedded
as a disjunction of guards. -/
def SensorManager.execute_sensor_action (env : SensorEnv) (st : SensorManager)
    (sensor_id : String) (action : String) (params : Option ExecParams) :
    Except String ExecResult :=
  if !st.sensors.contains sensor_id then
    Except.ok
      { status := "error", error := some ("Sensor " ++ sensor_id ++ " not found"),
        action := none, params := none, timestamp := env.now }
  else
    match st.sensor_configs.lookup sensor_id with
    | none => Except.error ("KeyError: " ++ sensor_id)
    | some config =>
        if !config.enabled then
          Except.ok
            { status := "error", error := some ("Sensor " ++ sensor_id ++ " is disabled"),
              action := none, params := none, timestamp := env.now }
        else
          match st.sensors.lookup sensor_id with
          | none =>
              -- unreachable given the contains guard; caught by the try block
              Except.ok
                { status := "error", error := some ("KeyError: " ++ sensor_id),
                  action := none, params := none, timestamp := env.now }
          | some inst =>
              let params' := params.getD { text := none, clear := none, value := none }
              let supported : Bool :=
                (action = "display_text" && env.hasDisplayText inst) ||
                (action = "append_text" && env.hasAppendText inst) ||
                (action = "clear" && env.hasClear inst) ||
                (action = "toggle" && env.hasDevice inst && env.deviceHasToggle inst) ||
                (action = "set_output" && env.hasDevice inst)
              if supported then
                match env.actionRaises inst action with
                | some e =>
                    Except.ok
                      { status := "error", error := some e,
                        action := none, params := none, timestamp := env.now }
                | none =>
                    Except.ok
                      { status := "success", error := none,
                        action := some action, params := some params',
                        timestamp := env.now }
              else
                Except.ok
                  { status := "error",
                    error := some ("Action " ++ action ++ " not supported for sensor "
                      ++ sensor_id ++ " of type " ++ config.sensor_type),
                    action := none, params := none, timestamp := env.now }

/-- One entry of the status report built by `get_sensor_status`. -/
structure SensorStatusEntry where
  sensor_id : String
  sensor_type : String
  enabled : Bool
  alias_ : Option String
  inputs : Inputs
  initialized : Bool
  timestamp : Nat
deriving DecidableEq

/-- Return shape of `get_sensor_status`: the not-found error dict, the
single-sensor dict, or the all-sensors summary dict. -/
inductive StatusResult where
  | notFound (error : String) (timestamp : Nat)
  | single (entry : SensorStatusEntry)
  | all (total_sensors : Nat) (sensors : List SensorStatusEntry) (timestamp : Nat)
deriving DecidableEq

/-- Single-sensor entry built by the found branch of `get_sensor_status`. -/
def statusEntry (env : SensorEnv) (st : SensorManager) (sid : String)
    (config : SensorConfig) : SensorStatusEntry :=
  { sensor_id := sid, sensor_type := config.sensor_type,
    enabled := config.enabled, alias_ := config.alias_, inputs := config.inputs,
    initialized := st.sensors.contains sid, timestamp := env.now }

/-- `SensorManager.get_sensor_status`. `if sensor_id:` is Python truthiness,
so `None` and `""` both select the all-sensors branch. The all-sensors
branch recurses with each stored key; a stored key `""` would recurse into
the all-sensors branch again without bound, raising `RecursionError` — that
divergence is embedded as `Except.error`. -/
def SensorManager.get_sensor_status (env : SensorEnv) (st : SensorManager)
    (sensor_id : Option String) : Except String StatusResult :=
  if truthyStr sensor_id then
    let sid := sensor_id.getD ""
    match st.sensor_configs.lookup sid with
    | none =>
        Except.ok (StatusResult.notFound ("Sensor " ++ sid ++ " not found") env.now)
    | some config =>
        Except.ok (StatusResult.single (statusEntry env st sid config))
  else
    if st.sensor_configs.contains "" then
      Except.error "RecursionError"
    else
      Except.ok
        (StatusResult.all st.sensor_configs.size
          (st.sensor_configs.items.map (fun p => statusEntry env st p.1 p.2))
          env.now)

/-- Partial configuration dict handed to `configure_sensor` (`new_config`);
each field is `some` exactly when the corresponding key is present. -/
structure ConfigPayload where
  sensor_type : Option String
  inputs : Option Inputs
  enabled : Option Bool
  alias_ : Option (Option String)
deriving DecidableEq

/-- Return shape of `configure_sensor`. -/
inductive ConfigureResult where
  | failure (error : String) (timestamp : Nat)
  | success (sensor_id : String) (config : SensorConfig) (timestamp : Nat)
deriving DecidableEq

/-- The `status` key of a `configure_sensor` result dict. -/
def ConfigureResult.status : ConfigureResult → String
  | ConfigureResult.failure _ _ => "error"
  | ConfigureResult.success _ _ _ => "success"

/-- Resolution of `sensor_type` in `configure_sensor`:
`new_config.get('sensor_type') or (existing.sensor_type if existing else None)`
— a falsy payload value (absent or `""`) falls back to the existing config. -/
def resolvedSensorType (existing : Option SensorConfig) (p : ConfigPayload) :
    Option String :=
  match p.sensor_type with
  | some t => if t = "" then existing.map SensorConfig.sensor_type else some t
  | none => existing.map SensorConfig.sensor_type

/-- Resolution of `inputs`: `new_config.get('inputs', existing.inputs if existing else {})`
— `dict.get` with a default falls back only when the key is absent. -/
def resolvedInputs (existing : Option SensorConfig) (p : ConfigPayload) : Inputs :=
  p.inputs.getD (match existing with | some c => c.inputs | none => [])

/-- Resolution of `enabled` in `configure_sensor`. -/
def resolvedEnabled (existing : Option SensorConfig) (p : ConfigPayload) : Bool :=
  p.enabled.getD (match existing with | some c => c.enabled | none => true)

/-- Resolution of `alias` in `configure_sensor`. -/
def resolvedAlias (existing : Option SensorConfig) (p : ConfigPayload) :
    Option String :=
  p.alias_.getD (match existing with | some c => c.alias_ | none => none)

/-- `SensorManager.configure_sensor`. Merges the payload over the existing
config, drops the live instance, re-adds; when the add fails while enabling,
rolls back to the prior config and prior instance and reports an error dict;
otherwise persists and reports success. -/
def SensorManager.configure_sensor (env : SensorEnv) (st : SensorManager)
    (sensor_id : String) (new_config : ConfigPayload) :
    ConfigureResult × SensorManager × List Event :=
  let existing_config := st.sensor_configs.lookup sensor_id
  let sensor_type := resolvedSensorType existing_config new_config
  if !truthyStr sensor_type then
    (ConfigureResult.failure "sensor_type is required when creating a new sensor" env.now,
     st, [])
  else
    let updated_config : SensorConfig :=
      { sensor_id := sensor_id, sensor_type := sensor_type.getD "",
        inputs := resolvedInputs existing_config new_config,
        enabled := resolvedEnabled existing_config new_config,
        alias_ := resolvedAlias existing_config new_config }
    let previous_sensor := st.sensors.lookup sensor_id
    let previous_config := existing_config
    let st1 : SensorManager := { st with sensors := st.sensors.erase sensor_id }
    let r := st1.add_sensor env updated_config
    if !r.1 && updated_config.enabled then
      let st3 : SensorManager :=
        match previous_config with
        | some pc =>
            let stc : SensorManager :=
              { r.2.1 with sensor_configs := r.2.1.sensor_configs.insert sensor_id pc }
            match previous_sensor with
            | some ps => { stc with sensors := stc.sensors.insert sensor_id ps }
            | none => stc
        | none => r.2.1
      (ConfigureResult.failure ("Failed to configure sensor " ++ sensor_id) env.now,
       st3, r.2.2)
    else
      (ConfigureResult.success sensor_id updated_config env.now,
       r.2.1, r.2.2 ++ r.2.1.persist_configs env)

/-- One raw entry of the list handed to `load_sensor_configs`; `sensor_id`
and `sensor_type` are mandatory keys whose absence raises `KeyError`
(caught and logged, skipping the entry). -/
structure LoadPayload where
  sensor_id : Option String
  sensor_type : Option String
  inputs : Option Inputs
  enabled : Option Bool
  alias_ : Option (Option String)
deriving DecidableEq

/-- `SensorManager.load_sensor_configs`: build a `SensorConfig` from each
dict (defaults: empty inputs, enabled, no alias) and `add_sensor` it,
collecting the ids that were added; a malformed dict is logged and skipped. -/
def SensorManager.load_sensor_configs (env : SensorEnv) :
    SensorManager → List LoadPayload → List String × SensorManager × List Event
  | st, [] => ([], st, [])
  | st, p :: rest =>
      match p.sensor_id, p.sensor_type with
      | some sid, some stype =>
          let config : SensorConfig :=
            { sensor_id := sid, sensor_type := stype,
              inputs := p.inputs.getD [], enabled := p.enabled.getD true,
              alias_ := p.alias_.getD none }
          let r := st.add_sensor env config
          let rec' := SensorManager.load_sensor_configs env r.2.1 rest
          (if r.1 then sid :: rec'.1 else rec'.1, rec'.2.1, r.2.2 ++ rec'.2.2)
      | _, _ =>
          let rec' := SensorManager.load_sensor_configs env st rest
          (rec'.1, rec'.2.1, Event.logError "Failed to load sensor config" :: rec'.2.2)

/-- The `params` dict of a platform command as consumed by
`process_command` (keys `execute_action` and `execute_params`). -/
structure CommandParams where
  execute_action : Option String
  execute_params : Option ExecParams
deriving DecidableEq

/-- A platform command dict `{action, sensor_id?, params?, config?}` as
consumed by `process_command`; each field is `some` exactly when the key is
present. -/
structure Command where
  action : Option String
  sensor_id : Option String
  params : Option CommandParams
  config : Option ConfigPayload
deriving DecidableEq

/-- Return shape of `process_command`: one constructor per return-dict
literal in the source. `caught` is the outer except branch that converts any
exception escaping the dispatched operation into an error dict. -/
inductive CommandResult where
  | readOne (sensor_id : String) (result : SensorReading) (timestamp : Nat)
  | readAll (result : List SensorReading) (count : Nat) (timestamp : Nat)
  | executeMissingId (timestamp : Nat)
  | executeRes (sensor_id : String) (execute_action : String) (result : ExecResult)
      (timestamp : Nat)
  | statusRes (sensor_id : Option String) (result : StatusResult) (timestamp : Nat)
  | configureMissingId (timestamp : Nat)
  | configureRes (sensor_id : String) (result : ConfigureResult) (timestamp : Nat)
  | unknown (command : Option String) (error : String) (timestamp : Nat)
  | caught (command : Option String) (error : String) (timestamp : Nat)
deriving DecidableEq

/-- The `status` key of a `process_command` result dict, when present. -/
def CommandResult.statusField : CommandResult → Option String
  | CommandResult.readOne _ _ _ => none
  | CommandResult.readAll _ _ _ => none
  | CommandResult.executeMissingId _ => some "error"
  | CommandResult.executeRes _ _ _ _ => none
  | CommandResult.statusRes _ _ _ => none
  | CommandResult.configureMissingId _ => some "error"
  | CommandResult.configureRes _ _ _ => none
  | CommandResult.unknown _ _ _ => some "error"
  | CommandResult.caught _ _ _ => some "error"

/-- The `error` key of a `process_command` result dict, when present. -/
def CommandResult.errorField : CommandResult → Option String
  | CommandResult.executeMissingId _ => some "sensor_id required for execute command"
  | CommandResult.configureMissingId _ => some "sensor_id is required for configure command"
  | CommandResult.unknown _ e _ => some e
  | CommandResult.caught _ e _ => some e
  | _ => none

/-- `SensorManager.process_command`. The whole body sits in a try block, so
an exception raised by a dispatched operation (an `Except.error` of the
embedding) becomes the `caught` error dict; the function itself is total —
nothing raises past this boundary. -/
def SensorManager.process_command (env : SensorEnv) (st : SensorManager)
    (command : Command) : CommandResult × SensorManager × List Event :=
  let action := command.action
  let sensor_id := command.sensor_id
  let params := command.params.getD { execute_action := none, execute_params := none }
  if action = some "read" then
    if truthyStr sensor_id then
      let sid := sensor_id.getD ""
      match st.read_sensor env sid with
      | Except.ok r => (CommandResult.readOne sid r env.now, st, [])
      | Except.error e => (CommandResult.caught action e env.now, st, [])
    else
      match st.read_all_sensors env with
      | Except.ok rs => (CommandResult.readAll rs rs.length env.now, st, [])
      | Except.error e => (CommandResult.caught action e env.now, st, [])
  else if action = some "execute" then
    if !truthyStr sensor_id then
      (CommandResult.executeMissingId env.now, st, [])
    else
      let sid := sensor_id.getD ""
      let execute_action := params.execute_action.getD "read"
      match st.execute_sensor_action env sid execute_action params.execute_params with
      | Except.ok r => (CommandResult.executeRes sid execute_action r env.now, st, [])
      | Except.error e => (CommandResult.caught action e env.now, st, [])
  else if action = some "status" then
    match st.get_sensor_status env sensor_id with
    | Except.ok r => (CommandResult.statusRes sensor_id r env.now, st, [])
    | Except.error e => (CommandResult.caught action e env.now, st, [])
  else if action = some "configure" then
    if !truthyStr sensor_id then
      (CommandResult.configureMissingId env.now, st, [])
    else
      let sid := sensor_id.getD ""
      let payload := command.config.getD
        { sensor_type := none, inputs := none, enabled := none, alias_ := none }
      let r := st.configure_sensor env sid payload
      (CommandResult.configureRes sid r.1 env.now, r.2.1, r.2.2)
  else
    (CommandResult.unknown action
      ("Unknown action: " ++ pyStr action ++ ". Supported actions: read, execute, status")
      env.now, st, [])

/-- A parsed `device_exec` envelope as read by `on_received`.
`update_rules`/`update_device` record the truthiness of those keys;
`sensor_command` is `some` exactly when the key holds a truthy command dict. -/
structure DeviceExec where
  response_topic : Option String
  update_rules : Bool
  update_device : Bool
  sensor_command : Option Command
deriving DecidableEq

/-- Payload of an outbound reply before signing: the sensor-command result,
the generic `{info: "success"}` acknowledgment, or the handler-fault body
`{info: "error", error: msg}`. -/
inductive ReplyPayload where
  | sensorResult (r : CommandResult)
  | successInfo
  | errorInfo (error : String)
deriving DecidableEq

/-- Modelled from the spec: `utils.make_cmd` (code not under src/) wraps a
payload in a signed envelope using the client key pair; the cryptography is
opaque, only the pairing of payload and key is observable here. -/
structure SignedMsg where
  payload : ReplyPayload
  signedWith : String
deriving DecidableEq

/-- Modelled from the spec: signing a reply payload with the key pair. -/
def make_cmd (payload : ReplyPayload) (keyPair : String) : SignedMsg :=
  { payload := payload, signedWith := keyPair }

/-- Environment of the dispatch core. `validExpiry` and `checkAuth` are
modelled from the spec: `auth.validate_expiry` / `auth.check_auth` (code not
under src/) are pure predicates of the envelope and device identity, so for
a fixed received envelope they are booleans. The `…Raises` oracles embed an
exception escaping the rule refresh, the device refresh, or the
user-registered callback. -/
structure ClientEnv where
  validExpiry : Bool
  checkAuth : Bool
  keyPair : String
  updateRulesRaises : Option String
  updateDeviceRaises : Option String
  callerRaises : Option String
deriving DecidableEq

/-- Observable behaviour of one `on_received` call: which handlers ran,
whether the user callback was invoked, every publish on the socket
(topic and signed message, in order), and the log counters. -/
structure Trace where
  updatedRules : Bool
  updatedDevice : Bool
  sensorProcessed : Bool
  callerInvoked : Bool
  emissions : List (String × SignedMsg)
  warnings : Nat
  errorsLogged : Nat
deriving DecidableEq

/-- The all-quiet trace. -/
def emptyTrace : Trace :=
  { updatedRules := false, updatedDevice := false, sensorProcessed := false,
    callerInvoked := false, emissions := [], warnings := 0, errorsLogged := 0 }

/-- The inner `except` handler of `on_received`: publish a signed
`{info: "error", error: msg}` to `response_topic` when one is declared
(Python truthiness), and log the error. -/
def handleExc (cenv : ClientEnv) (response_topic : Option String) (t : Trace)
    (e : String) : Trace :=
  let t1 :=
    if truthyStr response_topic then
      { t with emissions := t.emissions ++
          [(response_topic.getD "", make_cmd (ReplyPayload.errorInfo e) cenv.keyPair)] }
    else t
  { t1 with errorsLogged := t1.errorsLogged + 1 }

/-- `CyberflyClient.on_received`, after the two JSON decoding layers, for one
parsed envelope. Gate on the combined authenticator; inside the gate run the
refresh flags, then either the sensor-command branch (publish its signed
result and return — the user callback is bypassed) or the user callback
followed by a signed success acknowledgment; any exception from a handler is
routed to `handleExc`. Authentication failure only logs a warning. -/
def CyberflyClient.on_received (cenv : ClientEnv) (senv : SensorEnv)
    (st : SensorManager) (device_exec : DeviceExec) : Trace × SensorManager :=
  let response_topic := device_exec.response_topic
  if cenv.validExpiry && cenv.checkAuth then
    match (if device_exec.update_rules then cenv.updateRulesRaises else none) with
    | some e => (handleExc cenv response_topic emptyTrace e, st)
    | none =>
        let t1 := { emptyTrace with updatedRules := device_exec.update_rules }
        match (if device_exec.update_device then cenv.updateDeviceRaises else none) with
        | some e => (handleExc cenv response_topic t1 e, st)
        | none =>
            let t2 := { t1 with updatedDevice := device_exec.update_device }
            match device_exec.sensor_command with
            | some cmd =>
                let r := st.process_command senv cmd
                let t3 := { t2 with sensorProcessed := true }
                let t4 :=
                  if truthyStr response_topic then
                    { t3 with emissions := t3.emissions ++
                        [(response_topic.getD "",
                          make_cmd (ReplyPayload.sensorResult r.1) cenv.keyPair)] }
                  else t3
                (t4, r.2.1)
            | none =>
                match cenv.callerRaises with
                | some e =>
                    (handleExc cenv response_topic
                      { t2 with callerInvoked := true } e, st)
                | none =>
                    let t3 := { t2 with callerInvoked := true }
                    let t4 :=
                      if truthyStr response_topic then
                        { t3 with emissions := t3.emissions ++
                            [(response_topic.getD "",
                              make_cmd ReplyPayload.successInfo cenv.keyPair)] }
                      else t3
                    (t4, st)
  else
    ({ emptyTrace with warnings := 1 }, st)

/-- Which exception, if any, the fault-isolated region of `on_received`
hits first on the path the envelope selects: a raise from the rule refresh,
then from the device refresh, then — only when no sensor command
short-circuits — from the user callback. -/
def firstRaise (cenv : ClientEnv) (ex : DeviceExec) : Option String :=
  match (if ex.update_rules then cenv.updateRulesRaises else none) with
  | some e => some e
  | none =>
      match (if ex.update_device then cenv.updateDeviceRaises else none) with
      | some e => some e
      | none =>
          match ex.sensor_command with
          | some _ => none
          | none => cenv.callerRaises

/-- Registry invariant: every id in the live instance table also has an
entry in the configuration table (stated over the instance list so that it
is decidable on concrete states). -/
def SensorManager.Inv (st : SensorManager) : Prop :=
  (st.sensors.items.all fun p => st.sensor_configs.contains p.1) = true

instance (st : SensorManager) : Decidable st.Inv := by
  unfold SensorManager.Inv; exact inferInstance

theorem Dict.lookup_eq_some_mem {α : Type} {d : Dict α} {k : String} {v : α}
    (h : d.lookup k = some v) : (k, v) ∈ d.items := by
  induction d with
  | nil => simp [Dict.lookup] at h
  | cons p rest ih =>
      obtain ⟨pk, pv⟩ := p
      by_cases hk : pk = k
      · subst hk
        have h' : pv = v := by simpa [Dict.lookup] using h
        subst h'
        exact List.mem_cons_self _ _
      · have h' : Dict.lookup rest k = some v := by simpa [Dict.lookup, hk] using h
        exact List.mem_cons_of_mem _ (ih h')

theorem Dict.mem_lookup_isSome {α : Type} {d : Dict α} {k : String} {v : α}
    (h : (k, v) ∈ d.items) : (d.lookup k).isSome = true := by
  induction d with
  | nil => simp [Dict.items] at h
  | cons p rest ih =>
      obtain ⟨pk, pv⟩ := p
      simp only [Dict.items] at h
      rcases List.mem_cons.mp h with h1 | h2
      · have hk : pk = k := (congrArg Prod.fst h1).symm
        simp [Dict.lookup, hk]
      · by_cases hk : pk = k
        · simp [Dict.lookup, hk]
        · simpa [Dict.lookup, hk] using ih h2

/-- The invariant in its pointwise form. -/
theorem SensorManager.inv_iff (st : SensorManager) :
    st.Inv ↔ ∀ k, st.sensors.contains k = true → st.sensor_configs.contains k = true := by
  unfold SensorManager.Inv
  rw [List.all_eq_true]
  constructor
  · intro h k hk
    simp only [Dict.contains, Option.isSome_iff_exists] at hk
    obtain ⟨v, hv⟩ := hk
    have := h (k, v) (Dict.lookup_eq_some_mem hv)
    simpa using this
  · intro h p hp
    have : st.sensors.contains p.1 = true := by
      obtain ⟨pk, pv⟩ := p
      exact Dict.mem_lookup_isSome hp
    simpa using h p.1 this

/-!  Concrete fixtures used by the witness and counterexample theorems. -/

/-- Driver environment whose factory accepts exactly the `dht11` type. -/
def testEnv : SensorEnv :=
  { factory := fun t _ => if t = "dht11" then Except.ok 7 else Except.error "unsupported sensor",
    readInstance := fun _ => Except.ok [("temperature", "21")],
    hasDisplayText := fun _ => false, hasAppendText := fun _ => false,
    hasClear := fun _ => false, hasDevice := fun _ => false,
    deviceHasToggle := fun _ => false, actionRaises := fun _ _ => none,
    hookRegistered := true, hookRaises := false, now := 0 }

/-- Driver environment whose factory always fails. -/
def failEnv : SensorEnv := { testEnv with factory := fun _ _ => Except.error "boom" }

def cfgS1disabled : SensorConfig :=
  { sensor_id := "s1", sensor_type := "dht11", inputs := [], enabled := false, alias_ := none }

def cfgS1enabled : SensorConfig :=
  { sensor_id := "s1", sensor_type := "dht11", inputs := [], enabled := true, alias_ := none }

def stEmpty : SensorManager := { sensors := [], sensor_configs := [] }

def stDisabledS1 : SensorManager :=
  { sensors := [], sensor_configs := [("s1", cfgS1disabled)] }

def stLiveS1 : SensorManager :=
  { sensors := [("s1", 7)], sensor_configs := [("s1", cfgS1enabled)] }

def cmdReadS1 : Command :=
  { action := some "read", sensor_id := some "s1", params := none, config := none }

def exSensor : DeviceExec :=
  { response_topic := some "rt", update_rules := true, update_device := false,
    sensor_command := some cmdReadS1 }

def exPlain : DeviceExec :=
  { response_topic := some "rt", update_rules := false, update_device := false,
    sensor_command := none }

def cenvOk : ClientEnv :=
  { validExpiry := true, checkAuth := true, keyPair := "kp",
    updateRulesRaises := none, updateDeviceRaises := none, callerRaises := none }

def cenvAuthFail : ClientEnv := { cenvOk with validExpiry := false }

def cenvCallerBoom : ClientEnv := { cenvOk with callerRaises := some "boom" }

def cfgPayloadBmp : ConfigPayload :=
  { sensor_type := some "bmp280", inputs := none, enabled := none, alias_ := none }

/-- C2: for every received envelope for which the combined authentication
check (expiry validation AND authorization check) returns false,
`on_received` emits no reply on any topic and runs no handler — no
rule/device refresh, no sensor command processing, no user callback — only a
warning is logged and the registry state is untouched. -/
theorem C2_auth_gating (cenv : ClientEnv) (senv : SensorEnv) (st : SensorManager)
    (ex : DeviceExec) (h : (cenv.validExpiry && cenv.checkAuth) = false) :
    CyberflyClient.on_received cenv senv st ex = ({ emptyTrace with warnings := 1 }, st) := by
  unfold CyberflyClient.on_received
  simp [h]

/-- Witness for C2 at a concrete envelope with an expired validity check. -/
theorem C2_auth_gating_witness :
    (cenvAuthFail.validExpiry && cenvAuthFail.checkAuth) = false ∧
    CyberflyClient.on_received cenvAuthFail testEnv stEmpty exSensor =
      ({ emptyTrace with warnings := 1 }, stEmpty) :=
  ⟨by decide, C2_auth_gating cenvAuthFail testEnv stEmpty exSensor (by decide)⟩

/-- C10: `remove_sensor` is total and idempotent: for every sensor id,
including one never registered, it returns `true`, leaves no configuration
and no instance under that id, triggers the persistence callback (when one
is registered), and a second call yields the same result and final state as
the first. -/
theorem C10_remove_sensor_total_idempotent (env : SensorEnv) (st : SensorManager)
    (sensor_id : String) :
    (st.remove_sensor env sensor_id).1 = true ∧
    (st.remove_sensor env sensor_id).2.1.sensor_configs.lookup sensor_id = none ∧
    (st.remove_sensor env sensor_id).2.1.sensors.lookup sensor_id = none ∧
    (env.hookRegistered = true →
      Event.persist ((st.remove_sensor env sensor_id).2.1.sensor_configs.values) ∈
        (st.remove_sensor env sensor_id).2.2) ∧
    (st.remove_sensor env sensor_id).2.1.remove_sensor env sensor_id =
      st.remove_sensor env sensor_id := by
  refine ⟨rfl, ?_, ?_, ?_, ?_⟩
  · simp [SensorManager.remove_sensor, Dict.lookup_erase]
  · simp [SensorManager.remove_sensor, Dict.lookup_erase]
  · intro hreg
    by_cases hr : env.hookRaises <;>
      simp [SensorManager.remove_sensor, SensorManager.persist_configs, hreg, hr]
  · simp [SensorManager.remove_sensor, Dict.erase_erase]

/-- Witness for C10 at a concrete registered sensor. -/
theorem C10_remove_sensor_total_idempotent_witness :
    testEnv.hookRegistered = true ∧
    (stLiveS1.remove_sensor testEnv "s1").1 = true ∧
    Event.persist ((stLiveS1.remove_sensor testEnv "s1").2.1.sensor_configs.values) ∈
      (stLiveS1.remove_sensor testEnv "s1").2.2 ∧
    (stLiveS1.remove_sensor testEnv "s1").2.1.remove_sensor testEnv "s1" =
      stLiveS1.remove_sensor testEnv "s1" :=
  ⟨by decide,
   (C10_remove_sensor_total_idempotent testEnv stLiveS1 "s1").1,
   (C10_remove_sensor_total_idempotent testEnv stLiveS1 "s1").2.2.2.1 (by decide),
   (C10_remove_sensor_total_idempotent testEnv stLiveS1 "s1").2.2.2.2⟩

/-- C4 counterexample: sensor `s1` is registered-disabled and the driver
factory fails, yet `enable_sensor` — while returning failure — leaves the
stored configuration flipped to `enabled = true`: the pre-call state is not
restored, so the claim as stated is false. -/
theorem C4_counterexample :
    (stDisabledS1.enable_sensor failEnv "s1").1 = false ∧
    ((stDisabledS1.enable_sensor failEnv "s1").2.1.sensor_configs.lookup "s1").map
      SensorConfig.enabled = some true := by decide

/-- C4 amended: for every sensor in state registered-disabled, if
`enable_sensor` is called and driver instantiation fails, the operation
returns failure and no live instance exists — but the stored configuration's
`enabled` flag has been mutated to `true` in place and is not restored, so
the sensor is left with a configuration marked enabled and no instance (and
nothing is persisted). -/
theorem C4_enable_failure_keeps_enabled_flag (env : SensorEnv) (st : SensorManager)
    (sensor_id : String) (config : SensorConfig) (e : String)
    (hc : st.sensor_configs.lookup sensor_id = some config)
    (hinst : st.sensors.contains sensor_id = false)
    (hfail : env.factory config.sensor_type config.inputs = Except.error e) :
    (st.enable_sensor env sensor_id).1 = false ∧
    (st.enable_sensor env sensor_id).2.1.sensor_configs.lookup sensor_id =
      some { config with enabled := true } ∧
    (st.enable_sensor env sensor_id).2.1.sensors.contains sensor_id = false ∧
    ∀ cs, Event.persist cs ∉ (st.enable_sensor env sensor_id).2.2 := by
  simp only [SensorManager.enable_sensor, hc, SensorManager.add_sensor]
  simp [hfail, Dict.lookup_insert, hinst]

/-- Witness for the amended C4 at a concrete registered-disabled sensor. -/
theorem C4_enable_failure_keeps_enabled_flag_witness :
    stDisabledS1.sensor_configs.lookup "s1" = some cfgS1disabled ∧
    stDisabledS1.sensors.contains "s1" = false ∧
    failEnv.factory cfgS1disabled.sensor_type cfgS1disabled.inputs = Except.error "boom" ∧
    (stDisabledS1.enable_sensor failEnv "s1").1 = false ∧
    (stDisabledS1.enable_sensor failEnv "s1").2.1.sensor_configs.lookup "s1" =
      some { cfgS1disabled with enabled := true } :=
  ⟨by decide, by decide, rfl,
   (C4_enable_failure_keeps_enabled_flag failEnv stDisabledS1 "s1" cfgS1disabled "boom"
      (by decide) (by decide) rfl).1,
   (C4_enable_failure_keeps_enabled_flag failEnv stDisabledS1 "s1" cfgS1disabled "boom"
      (by decide) (by decide) rfl).2.1⟩

/-- C5: calling `configure_sensor` on an existing sensor with a live
instance, with a merged configuration that is enabled but whose driver
instantiation fails, restores the exact prior configuration and the exact
prior live instance (the whole registry is lookup-identical to before) and
returns a result with status `"error"`. -/
theorem C5_configure_rollback (env : SensorEnv) (st : SensorManager)
    (sensor_id : String) (prevConfig : SensorConfig) (prevInst : SensorInstance)
    (payload : ConfigPayload) (e : String)
    (hc : st.sensor_configs.lookup sensor_id = some prevConfig)
    (hs : st.sensors.lookup sensor_id = some prevInst)
    (htype : truthyStr (resolvedSensorType (some prevConfig) payload) = true)
    (hen : resolvedEnabled (some prevConfig) payload = true)
    (hfail : env.factory ((resolvedSensorType (some prevConfig) payload).getD "")
        (resolvedInputs (some prevConfig) payload) = Except.error e) :
    ((st.configure_sensor env sensor_id payload).1).status = "error" ∧
    (∀ k, (st.configure_sensor env sensor_id payload).2.1.sensors.lookup k =
        st.sensors.lookup k) ∧
    (∀ k, (st.configure_sensor env sensor_id payload).2.1.sensor_configs.lookup k =
        st.sensor_configs.lookup k) := by
  have hstep :
      st.configure_sensor env sensor_id payload =
        (ConfigureResult.failure ("Failed to configure sensor " ++ sensor_id) env.now,
         { sensors := (st.sensors.erase sensor_id).insert sensor_id prevInst,
           sensor_configs := st.sensor_configs.insert sensor_id prevConfig },
         [Event.logError ("Failed to add sensor " ++ sensor_id ++ ": " ++ e)]) := by
    simp only [SensorManager.configure_sensor, hc, hs, SensorManager.add_sensor]
    simp [htype, hen, hfail]
  refine ⟨by rw [hstep]; rfl, fun k => ?_, fun k => ?_⟩
  · rw [hstep]
    show Dict.lookup ((st.sensors.erase sensor_id).insert sensor_id prevInst) k =
      st.sensors.lookup k
    rw [Dict.lookup_insert, Dict.lookup_erase]
    by_cases hk : sensor_id = k
    · subst hk; simp [hs]
    · simp [hk]
  · rw [hstep]
    show Dict.lookup (st.sensor_configs.insert sensor_id prevConfig) k =
      st.sensor_configs.lookup k
    rw [Dict.lookup_insert]
    by_cases hk : sensor_id = k
    · subst hk; simp [hc]
    · simp [hk]

/-- Witness for C5 at a concrete live sensor reconfigured to a type the
factory rejects. -/
theorem C5_configure_rollback_witness :
    stLiveS1.sensor_configs.lookup "s1" = some cfgS1enabled ∧
    stLiveS1.sensors.lookup "s1" = some 7 ∧
    truthyStr (resolvedSensorType (some cfgS1enabled) cfgPayloadBmp) = true ∧
    resolvedEnabled (some cfgS1enabled) cfgPayloadBmp = true ∧
    ((stLiveS1.configure_sensor failEnv "s1" cfgPayloadBmp).1).status = "error" ∧
    (stLiveS1.configure_sensor failEnv "s1" cfgPayloadBmp).2.1.sensors.lookup "s1" =
      stLiveS1.sensors.lookup "s1" ∧
    (stLiveS1.configure_sensor failEnv "s1" cfgPayloadBmp).2.1.sensor_configs.lookup "s1" =
      stLiveS1.sensor_configs.lookup "s1" :=
  ⟨by decide, by decide, by decide, by decide,
   (C5_configure_rollback failEnv stLiveS1 "s1" cfgS1enabled 7 cfgPayloadBmp "boom"
      (by decide) (by decide) (by decide) (by decide) rfl).1,
   (C5_configure_rollback failEnv stLiveS1 "s1" cfgS1enabled 7 cfgPayloadBmp "boom"
      (by decide) (by decide) (by decide) (by decide) rfl).2.1 "s1",
   (C5_configure_rollback failEnv stLiveS1 "s1" cfgS1enabled 7 cfgPayloadBmp "boom"
      (by decide) (by decide) (by decide) (by decide) rfl).2.2 "s1"⟩

theorem persist_mem (env : SensorEnv) (st : SensorManager)
    (hreg : env.hookRegistered = true) :
    Event.persist st.sensor_configs.values ∈ st.persist_configs env := by
  by_cases hr : env.hookRaises <;> simp [SensorManager.persist_configs, hreg, hr]

theorem add_sensor_no_persist (env : SensorEnv) (st : SensorManager)
    (c : SensorConfig) : ∀ cs, Event.persist cs ∉ (st.add_sensor env c).2.2 := by
  intro cs
  unfold SensorManager.add_sensor
  split
  · simp
  · split <;> simp

theorem load_sensor_configs_no_persist (env : SensorEnv) :
    ∀ (ps : List LoadPayload) (st : SensorManager) (cs : List SensorConfig),
      Event.persist cs ∉ (SensorManager.load_sensor_configs env st ps).2.2 := by
  intro ps
  induction ps with
  | nil => intro st cs; simp [SensorManager.load_sensor_configs]
  | cons p rest ih =>
      intro st cs
      unfold SensorManager.load_sensor_configs
      cases hp : p.sensor_id with
      | none => simp [ih st cs]
      | some sid =>
          cases hq : p.sensor_type with
          | none => simp [ih st cs]
          | some stype =>
              simp only [List.mem_append, not_or]
              exact ⟨add_sensor_no_persist env st _ cs, ih _ cs⟩

theorem add_sensor_hook_indep (env : SensorEnv) (b : Bool) (st : SensorManager)
    (c : SensorConfig) :
    SensorManager.add_sensor { env with hookRaises := b } st c =
      SensorManager.add_sensor env st c := rfl

theorem remove_sensor_hook_indep (env : SensorEnv) (b : Bool) (st : SensorManager)
    (sid : String) :
    (st.remove_sensor { env with hookRaises := b } sid).1 = (st.remove_sensor env sid).1 ∧
    (st.remove_sensor { env with hookRaises := b } sid).2.1 =
      (st.remove_sensor env sid).2.1 := ⟨rfl, rfl⟩

theorem enable_sensor_hook_indep (env : SensorEnv) (b : Bool) (st : SensorManager)
    (sid : String) :
    (st.enable_sensor { env with hookRaises := b } sid).1 = (st.enable_sensor env sid).1 ∧
    (st.enable_sensor { env with hookRaises := b } sid).2.1 =
      (st.enable_sensor env sid).2.1 := by
  unfold SensorManager.enable_sensor
  cases hl : st.sensor_configs.lookup sid with
  | none => exact ⟨rfl, rfl⟩
  | some config =>
      simp only [add_sensor_hook_indep]
      by_cases hr :
          (SensorManager.add_sensor env
            { st with sensor_configs := st.sensor_configs.insert sid { config with enabled := true } }
            { config with enabled := true }).1 <;>
        simp [hr]

theorem disable_sensor_hook_indep (env : SensorEnv) (b : Bool) (st : SensorManager)
    (sid : String) :
    (st.disable_sensor { env with hookRaises := b } sid).1 = (st.disable_sensor env sid).1 ∧
    (st.disable_sensor { env with hookRaises := b } sid).2.1 =
      (st.disable_sensor env sid).2.1 := by
  unfold SensorManager.disable_sensor
  cases hl : st.sensor_configs.lookup sid with
  | none => exact ⟨rfl, rfl⟩
  | some config => exact ⟨rfl, rfl⟩

theorem configure_sensor_hook_indep (env : SensorEnv) (b : Bool) (st : SensorManager)
    (sid : String) (p : ConfigPayload) :
    (st.configure_sensor { env with hookRaises := b } sid p).1 =
      (st.configure_sensor env sid p).1 ∧
    (st.configure_sensor { env with hookRaises := b } sid p).2.1 =
      (st.configure_sensor env sid p).2.1 := by
  unfold SensorManager.configure_sensor
  simp only [add_sensor_hook_indep]
  by_cases h1 : (!truthyStr (resolvedSensorType (st.sensor_configs.lookup sid) p)) = true
  · rw [if_pos h1, if_pos h1]; exact ⟨rfl, rfl⟩
  · rw [if_neg h1, if_neg h1]
    by_cases h2 :
        (!(SensorManager.add_sensor env
              { sensors := st.sensors.erase sid, sensor_configs := st.sensor_configs }
              { sensor_id := sid,
                sensor_type := (resolvedSensorType (st.sensor_configs.lookup sid) p).getD "",
                inputs := resolvedInputs (st.sensor_configs.lookup sid) p,
                enabled := resolvedEnabled (st.sensor_configs.lookup sid) p,
                alias_ := resolvedAlias (st.sensor_configs.lookup sid) p }).1 &&
          resolvedEnabled (st.sensor_configs.lookup sid) p) = true
    · rw [if_pos h2, if_pos h2]; exact ⟨rfl, rfl⟩
    · rw [if_neg h2, if_neg h2]; exact ⟨rfl, rfl⟩

/-- C6 counterexample: with a save hook registered, a successful creation of
a sensor through `add_sensor` produces no persistence-callback invocation at
all, so the claim that every successful mutation — including creation via
add/load — invokes the save callback is false. -/
theorem C6_counterexample :
    testEnv.hookRegistered = true ∧
    (stEmpty.add_sensor testEnv cfgS1disabled).1 = true ∧
    (stEmpty.add_sensor testEnv cfgS1disabled).2.2 = [] := by decide

/-- C6 amended: successful remove, enable, disable and configure invoke the
registered persistence save callback, but creation via `add_sensor` or
`load_sensor_configs` does not; a failure of the callback is only logged and
never undoes the in-memory mutation (the result and resulting state of every
mutating operation are unchanged when the hook raises). -/
theorem C6_persistence_discipline (env : SensorEnv) (st : SensorManager)
    (c : SensorConfig) (sid : String) (payload : ConfigPayload)
    (ps : List LoadPayload) :
    (env.hookRegistered = true →
      Event.persist ((st.remove_sensor env sid).2.1.sensor_configs.values) ∈
        (st.remove_sensor env sid).2.2) ∧
    (env.hookRegistered = true → (st.enable_sensor env sid).1 = true →
      ∃ cs, Event.persist cs ∈ (st.enable_sensor env sid).2.2) ∧
    (env.hookRegistered = true → (st.disable_sensor env sid).1 = true →
      ∃ cs, Event.persist cs ∈ (st.disable_sensor env sid).2.2) ∧
    (env.hookRegistered = true →
      ((st.configure_sensor env sid payload).1).status = "success" →
      ∃ cs, Event.persist cs ∈ (st.configure_sensor env sid payload).2.2) ∧
    (∀ cs, Event.persist cs ∉ (st.add_sensor env c).2.2) ∧
    (∀ cs, Event.persist cs ∉ (SensorManager.load_sensor_configs env st ps).2.2) ∧
    (st.remove_sensor { env with hookRaises := true } sid).1 =
      (st.remove_sensor env sid).1 ∧
    (st.remove_sensor { env with hookRaises := true } sid).2.1 =
      (st.remove_sensor env sid).2.1 ∧
    (st.enable_sensor { env with hookRaises := true } sid).1 =
      (st.enable_sensor env sid).1 ∧
    (st.enable_sensor { env with hookRaises := true } sid).2.1 =
      (st.enable_sensor env sid).2.1 ∧
    (st.disable_sensor { env with hookRaises := true } sid).1 =
      (st.disable_sensor env sid).1 ∧
    (st.disable_sensor { env with hookRaises := true } sid).2.1 =
      (st.disable_sensor env sid).2.1 ∧
    (st.configure_sensor { env with hookRaises := true } sid payload).1 =
      (st.configure_sensor env sid payload).1 ∧
    (st.configure_sensor { env with hookRaises := true } sid payload).2.1 =
      (st.configure_sensor env sid payload).2.1 := by
  refine ⟨?_, ?_, ?_, ?_, add_sensor_no_persist env st c,
    fun cs => load_sensor_configs_no_persist env ps st cs,
    (remove_sensor_hook_indep env true st sid).1,
    (remove_sensor_hook_indep env true st sid).2,
    (enable_sensor_hook_indep env true st sid).1,
    (enable_sensor_hook_indep env true st sid).2,
    (disable_sensor_hook_indep env true st sid).1,
    (disable_sensor_hook_indep env true st sid).2,
    (configure_sensor_hook_indep env true st sid payload).1,
    (configure_sensor_hook_indep env true st sid payload).2⟩
  · intro hreg
    exact persist_mem env _ hreg
  · intro hreg hsucc
    unfold SensorManager.enable_sensor at hsucc ⊢
    cases hl : st.sensor_configs.lookup sid with
    | none => rw [hl] at hsucc; exact absurd hsucc (by simp)
    | some config =>
        rw [hl] at hsucc
        by_cases hr :
            (SensorManager.add_sensor env
              { st with sensor_configs := st.sensor_configs.insert sid { config with enabled := true } }
              { config with enabled := true }).1 = true
        · refine ⟨(SensorManager.add_sensor env
              { st with sensor_configs := st.sensor_configs.insert sid { config with enabled := true } }
              { config with enabled := true }).2.1.sensor_configs.values, ?_⟩
          simp only [hr, if_true]
          exact List.mem_append_right _ (persist_mem env _ hreg)
        · simp only [hr, if_false] at hsucc
          simp at hsucc
  · intro hreg hsucc
    unfold SensorManager.disable_sensor at hsucc ⊢
    cases hl : st.sensor_configs.lookup sid with
    | none => rw [hl] at hsucc; exact absurd hsucc (by simp)
    | some config =>
        exact ⟨_, persist_mem env _ hreg⟩
  · intro hreg hsucc
    unfold SensorManager.configure_sensor at hsucc ⊢
    by_cases ht : truthyStr (resolvedSensorType (st.sensor_configs.lookup sid) payload)
    · simp only [ht, Bool.not_true, if_false, if_neg] at hsucc ⊢
      by_cases hfa :
          !(SensorManager.add_sensor env { st with sensors := st.sensors.erase sid }
              { sensor_id := sid,
                sensor_type := (resolvedSensorType (st.sensor_configs.lookup sid) payload).getD "",
                inputs := resolvedInputs (st.sensor_configs.lookup sid) payload,
                enabled := resolvedEnabled (st.sensor_configs.lookup sid) payload,
                alias_ := resolvedAlias (st.sensor_configs.lookup sid) payload }).1 &&
            resolvedEnabled (st.sensor_configs.lookup sid) payload
      · rw [if_pos hfa] at hsucc
        exact absurd hsucc (by simp [ConfigureResult.status])
      · rw [if_neg hfa] at hsucc ⊢
        exact ⟨_, List.mem_append_right _ (persist_mem env _ hreg)⟩
    · rw [if_pos (by simp [ht])] at hsucc
      exact absurd hsucc (by simp [ConfigureResult.status])

/-- Witness for the amended C6: a concrete successful enable persists, and a
raising hook changes nothing in the resulting state. -/
theorem C6_persistence_discipline_witness :
    testEnv.hookRegistered = true ∧
    (stDisabledS1.enable_sensor testEnv "s1").1 = true ∧
    (∃ cs, Event.persist cs ∈ (stDisabledS1.enable_sensor testEnv "s1").2.2) ∧
    (stDisabledS1.enable_sensor { testEnv with hookRaises := true } "s1").2.1 =
      (stDisabledS1.enable_sensor testEnv "s1").2.1 :=
  ⟨by decide, by decide,
   (C6_persistence_discipline testEnv stDisabledS1 cfgS1disabled "s1" cfgPayloadBmp []).2.1
     (by decide) (by decide),
   (C6_persistence_discipline testEnv stDisabledS1 cfgS1disabled "s1" cfgPayloadBmp []).2.2.2.2.2.2.2.2.2.1⟩

theorem inv_insert_config (st : SensorManager) (h : st.Inv) (sid : String)
    (c : SensorConfig) :
    SensorManager.Inv { st with sensor_configs := st.sensor_configs.insert sid c } := by
  rw [SensorManager.inv_iff] at h ⊢
  intro k hk
  simp only [Dict.contains_insert]
  by_cases hck : sid = k
  · simp [hck]
  · simp only [if_neg hck]
    exact h k hk

theorem inv_erase_sensor (st : SensorManager) (h : st.Inv) (sid : String) :
    SensorManager.Inv { st with sensors := st.sensors.erase sid } := by
  rw [SensorManager.inv_iff] at h ⊢
  intro k hk
  simp only [Dict.contains_erase] at hk
  by_cases hck : sid = k
  · simp [hck] at hk
  · simp only [if_neg hck] at hk
    exact h k hk

theorem inv_add (env : SensorEnv) (st : SensorManager) (c : SensorConfig)
    (h : st.Inv) : ((st.add_sensor env c).2.1).Inv := by
  unfold SensorManager.add_sensor
  by_cases hen : (!c.enabled) = true
  · rw [if_pos hen]
    rw [SensorManager.inv_iff] at h ⊢
    intro k
    simp only [Dict.contains_erase, Dict.contains_insert]
    intro hk
    by_cases hck : c.sensor_id = k
    · simp [hck] at hk
    · simp only [if_neg hck] at hk ⊢
      exact h k hk
  · rw [if_neg hen]
    cases hf : env.factory c.sensor_type c.inputs with
    | ok inst =>
        rw [SensorManager.inv_iff] at h ⊢
        intro k
        simp only [Dict.contains_insert]
        intro hk
        by_cases hck : c.sensor_id = k
        · simp [hck]
        · simp only [if_neg hck] at hk ⊢
          exact h k hk
    | error e => exact h

theorem inv_remove (env : SensorEnv) (st : SensorManager) (sid : String)
    (h : st.Inv) : ((st.remove_sensor env sid).2.1).Inv := by
  unfold SensorManager.remove_sensor
  rw [SensorManager.inv_iff] at h ⊢
  intro k
  simp only [Dict.contains_erase]
  intro hk
  by_cases hck : sid = k
  · simp [hck] at hk
  · simp only [if_neg hck] at hk ⊢
    exact h k hk

theorem inv_enable (env : SensorEnv) (st : SensorManager) (sid : String)
    (h : st.Inv) : ((st.enable_sensor env sid).2.1).Inv := by
  unfold SensorManager.enable_sensor
  cases hl : st.sensor_configs.lookup sid with
  | none => exact h
  | some config =>
      have h1 := inv_insert_config st h sid { config with enabled := true }
      have h2 := inv_add env
        { st with sensor_configs := st.sensor_configs.insert sid { config with enabled := true } }
        { config with enabled := true } h1
      by_cases hr :
          (SensorManager.add_sensor env
            { st with sensor_configs := st.sensor_configs.insert sid { config with enabled := true } }
            { config with enabled := true }).1 = true <;>
        simp only [hr, if_true, if_false] <;> exact h2

theorem inv_disable (env : SensorEnv) (st : SensorManager) (sid : String)
    (h : st.Inv) : ((st.disable_sensor env sid).2.1).Inv := by
  unfold SensorManager.disable_sensor
  cases hl : st.sensor_configs.lookup sid with
  | none => exact h
  | some config =>
      rw [SensorManager.inv_iff] at h ⊢
      intro k
      simp only [Dict.contains_erase, Dict.contains_insert]
      intro hk
      by_cases hck : sid = k
      · simp [hck] at hk
      · simp only [if_neg hck] at hk ⊢
        exact h k hk

theorem inv_configure (env : SensorEnv) (st : SensorManager) (sid : String)
    (p : ConfigPayload) (h : st.Inv) :
    ((st.configure_sensor env sid p).2.1).Inv := by
  unfold SensorManager.configure_sensor
  by_cases h1 : (!truthyStr (resolvedSensorType (st.sensor_configs.lookup sid) p)) = true
  · rw [if_pos h1]; exact h
  · rw [if_neg h1]
    have hst1 := inv_erase_sensor st h sid
    have hr := inv_add env { st with sensors := st.sensors.erase sid }
      { sensor_id := sid,
        sensor_type := (resolvedSensorType (st.sensor_configs.lookup sid) p).getD "",
        inputs := resolvedInputs (st.sensor_configs.lookup sid) p,
        enabled := resolvedEnabled (st.sensor_configs.lookup sid) p,
        alias_ := resolvedAlias (st.sensor_configs.lookup sid) p } hst1
    by_cases h2 :
        (!(SensorManager.add_sensor env
              { sensors := st.sensors.erase sid, sensor_configs := st.sensor_configs }
              { sensor_id := sid,
                sensor_type := (resolvedSensorType (st.sensor_configs.lookup sid) p).getD "",
                inputs := resolvedInputs (st.sensor_configs.lookup sid) p,
                enabled := resolvedEnabled (st.sensor_configs.lookup sid) p,
                alias_ := resolvedAlias (st.sensor_configs.lookup sid) p }).1 &&
          resolvedEnabled (st.sensor_configs.lookup sid) p) = true
    · rw [if_pos h2]
      revert hr
      generalize (SensorManager.add_sensor env
          { sensors := st.sensors.erase sid, sensor_configs := st.sensor_configs }
          { sensor_id := sid,
            sensor_type := (resolvedSensorType (st.sensor_configs.lookup sid) p).getD "",
            inputs := resolvedInputs (st.sensor_configs.lookup sid) p,
            enabled := resolvedEnabled (st.sensor_configs.lookup sid) p,
            alias_ := resolvedAlias (st.sensor_configs.lookup sid) p }).2.1 = A
      intro hr
      cases hpc : st.sensor_configs.lookup sid with
      | none => exact hr
      | some pc =>
          cases hps : st.sensors.lookup sid with
          | none => exact inv_insert_config A hr sid pc
          | some psi =>
              have hc := inv_insert_config A hr sid pc
              rw [SensorManager.inv_iff] at hc ⊢
              intro k
              simp only [Dict.contains_insert]
              intro hk
              by_cases hck : sid = k
              · simp [hck]
              · simp only [if_neg hck] at hk ⊢
                simpa [Dict.contains_insert, hck] using hc k hk
    · rw [if_neg h2]
      exact hr

theorem inv_load (env : SensorEnv) :
    ∀ (ps : List LoadPayload) (st : SensorManager), st.Inv →
      ((SensorManager.load_sensor_configs env st ps).2.1).Inv := by
  intro ps
  induction ps with
  | nil => intro st h; exact h
  | cons p rest ih =>
      intro st h
      unfold SensorManager.load_sensor_configs
      cases hp : p.sensor_id with
      | none => exact ih st h
      | some sid =>
          cases hq : p.sensor_type with
          | none => exact ih st h
          | some stype => exact ih _ (inv_add env st _ h)

/-- C9: the registry invariant — every sensor id in the live instance table
also has an entry in the configuration table — is preserved by every
operation: add, remove, enable, disable, configure and load. -/
theorem C9_instance_implies_config_invariant (env : SensorEnv) (st : SensorManager)
    (hinv : st.Inv) :
    (∀ c, ((st.add_sensor env c).2.1).Inv) ∧
    (∀ sid, ((st.remove_sensor env sid).2.1).Inv) ∧
    (∀ sid, ((st.enable_sensor env sid).2.1).Inv) ∧
    (∀ sid, ((st.disable_sensor env sid).2.1).Inv) ∧
    (∀ sid p, ((st.configure_sensor env sid p).2.1).Inv) ∧
    (∀ ps, ((SensorManager.load_sensor_configs env st ps).2.1).Inv) :=
  ⟨fun c => inv_add env st c hinv,
   fun sid => inv_remove env st sid hinv,
   fun sid => inv_enable env st sid hinv,
   fun sid => inv_disable env st sid hinv,
   fun sid p => inv_configure env st sid p hinv,
   fun ps => inv_load env ps st hinv⟩

/-- Witness for C9 on a concrete state satisfying the invariant. -/
theorem C9_instance_implies_config_invariant_witness :
    stLiveS1.Inv ∧
    ((stLiveS1.enable_sensor testEnv "s1").2.1).Inv ∧
    ((stLiveS1.configure_sensor failEnv "s1" cfgPayloadBmp).2.1).Inv :=
  ⟨by decide,
   (C9_instance_implies_config_invariant testEnv stLiveS1 (by decide)).2.2.1 "s1",
   (C9_instance_implies_config_invariant failEnv stLiveS1 (by decide)).2.2.2.2.1 "s1" cfgPayloadBmp⟩

theorem read_sensor_ok (env : SensorEnv) (st : SensorManager) (sid : String)
    (hinv : st.Inv) : ∃ r, st.read_sensor env sid = Except.ok r := by
  unfold SensorManager.read_sensor
  by_cases hmem : st.sensors.contains sid = true
  · rw [if_neg (by simp [hmem])]
    have hcfg : st.sensor_configs.contains sid = true :=
      ((SensorManager.inv_iff st).mp hinv) sid hmem
    unfold Dict.contains at hcfg
    obtain ⟨c, hc⟩ := Option.isSome_iff_exists.mp hcfg
    simp only [hc]
    by_cases hen : (!c.enabled) = true
    · rw [if_pos hen]; exact ⟨_, rfl⟩
    · rw [if_neg hen]
      cases hs : st.sensors.lookup sid with
      | none => exact ⟨_, rfl⟩
      | some inst =>
          cases hread : env.readInstance inst with
          | ok data =>
              refine ⟨{ sensor_id := sid, sensor_type := c.sensor_type, data := data,
                        timestamp := env.now, status := "success", error := none }, ?_⟩
              simp [hread]
          | error e =>
              refine ⟨{ sensor_id := sid, sensor_type := c.sensor_type, data := [],
                        timestamp := env.now, status := "error", error := some e }, ?_⟩
              simp [hread]
  · have hmem' : st.sensors.contains sid = false := by simpa using hmem
    rw [if_pos (by simp [hmem'])]
    exact ⟨_, rfl⟩

/-- C7: for every sensor id, `read_sensor` on a registry satisfying the
instance-implies-config invariant is total (returns a reading, never
raises); an absent or disabled sensor yields a reading with status
`"error"` and an error message; and after a successful `disable_sensor`
the live instance table no longer contains that id. -/
theorem C7_read_total_and_disable_clears (env : SensorEnv) (st : SensorManager)
    (sid : String) (hinv : st.Inv) :
    (∃ r, st.read_sensor env sid = Except.ok r) ∧
    ((st.sensor_configs.lookup sid = none ∨
      (∃ c, st.sensor_configs.lookup sid = some c ∧ c.enabled = false)) →
      ∃ r, st.read_sensor env sid = Except.ok r ∧ r.status = "error" ∧
        r.error.isSome = true) ∧
    ((st.disable_sensor env sid).1 = true →
      (st.disable_sensor env sid).2.1.sensors.contains sid = false) := by
  refine ⟨read_sensor_ok env st sid hinv, ?_, ?_⟩
  · intro habs
    have hmem_or : st.sensors.contains sid = false ∨
        ∃ c, st.sensor_configs.lookup sid = some c ∧ c.enabled = false := by
      rcases habs with hnone | hdis
      · left
        by_contra hcon
        have hmem : st.sensors.contains sid = true := by
          cases hb : st.sensors.contains sid with
          | false => exact absurd hb hcon
          | true => rfl
        have := ((SensorManager.inv_iff st).mp hinv) sid hmem
        unfold Dict.contains at this
        rw [hnone] at this
        simp at this
      · exact Or.inr hdis
    unfold SensorManager.read_sensor
    rcases hmem_or with hmem | ⟨c, hc, hcen⟩
    · rw [if_pos (by simp [hmem])]
      exact ⟨_, rfl, rfl, rfl⟩
    · by_cases hmem : st.sensors.contains sid = true
      · rw [if_neg (by simp [hmem])]
        simp only [hc]
        rw [if_pos (by simp [hcen])]
        exact ⟨_, rfl, rfl, rfl⟩
      · have hmem' : st.sensors.contains sid = false := by simpa using hmem
        rw [if_pos (by simp [hmem'])]
        exact ⟨_, rfl, rfl, rfl⟩
  · intro hsucc
    unfold SensorManager.disable_sensor at hsucc ⊢
    cases hl : st.sensor_configs.lookup sid with
    | none => rw [hl] at hsucc; exact absurd hsucc (by simp)
    | some config => simp [Dict.contains_erase]

/-- Witness for C7 at a concrete disabled sensor. -/
theorem C7_read_total_and_disable_clears_witness :
    stDisabledS1.Inv ∧
    (∃ r, stDisabledS1.read_sensor testEnv "s1" = Except.ok r ∧ r.status = "error" ∧
      r.error.isSome = true) ∧
    ((stDisabledS1.disable_sensor testEnv "s1").1 = true →
      (stDisabledS1.disable_sensor testEnv "s1").2.1.sensors.contains "s1" = false) :=
  ⟨by decide,
   (C7_read_total_and_disable_clears testEnv stDisabledS1 "s1" (by decide)).2.1
     (Or.inr ⟨cfgS1disabled, by decide, by decide⟩),
   (C7_read_total_and_disable_clears testEnv stDisabledS1 "s1" (by decide)).2.2⟩

theorem readAllLoop_ok (env : SensorEnv) (st : SensorManager) (hinv : st.Inv) :
    ∀ l : List (String × SensorInstance),
      (∀ p ∈ l, (st.sensor_configs.lookup p.1).isSome = true) →
      ∃ rs, readAllLoop env st l = Except.ok rs := by
  intro l
  induction l with
  | nil => intro _; exact ⟨[], rfl⟩
  | cons p rest ih =>
      intro hall
      obtain ⟨sid, inst⟩ := p
      obtain ⟨c, hc⟩ := Option.isSome_iff_exists.mp (hall (sid, inst) (List.mem_cons_self _ _))
      unfold readAllLoop
      simp only [hc]
      by_cases hen : c.enabled = true
      · rw [if_pos hen]
        obtain ⟨r, hr⟩ := read_sensor_ok env st sid hinv
        rw [hr]
        obtain ⟨rs, hrs⟩ := ih (fun q hq => hall q (List.mem_cons_of_mem _ hq))
        rw [hrs]
        exact ⟨_, rfl⟩
      · rw [if_neg hen]
        exact ih (fun q hq => hall q (List.mem_cons_of_mem _ hq))

theorem read_all_sensors_ok (env : SensorEnv) (st : SensorManager) (hinv : st.Inv) :
    ∃ rs, st.read_all_sensors env = Except.ok rs := by
  unfold SensorManager.read_all_sensors
  refine readAllLoop_ok env st hinv st.sensors.items (fun p hp => ?_)
  have hmem : st.sensors.contains p.1 = true := by
    obtain ⟨pk, pv⟩ := p
    exact Dict.mem_lookup_isSome hp
  exact ((SensorManager.inv_iff st).mp hinv) p.1 hmem

theorem execute_sensor_action_ok (env : SensorEnv) (st : SensorManager)
    (sid act : String) (params : Option ExecParams) (hinv : st.Inv) :
    ∃ r, st.execute_sensor_action env sid act params = Except.ok r := by
  unfold SensorManager.execute_sensor_action
  by_cases hmem : st.sensors.contains sid = true
  · rw [if_neg (by simp [hmem])]
    have hcfg : st.sensor_configs.contains sid = true :=
      ((SensorManager.inv_iff st).mp hinv) sid hmem
    unfold Dict.contains at hcfg
    obtain ⟨c, hc⟩ := Option.isSome_iff_exists.mp hcfg
    simp only [hc]
    by_cases hen : (!c.enabled) = true
    · rw [if_pos hen]; exact ⟨_, rfl⟩
    · rw [if_neg hen]
      cases hs : st.sensors.lookup sid with
      | none => exact ⟨_, rfl⟩
      | some inst =>
          by_cases hsup :
              ((act = "display_text" && env.hasDisplayText inst) ||
               (act = "append_text" && env.hasAppendText inst) ||
               (act = "clear" && env.hasClear inst) ||
               (act = "toggle" && env.hasDevice inst && env.deviceHasToggle inst) ||
               (act = "set_output" && env.hasDevice inst)) = true
          · cases hra : env.actionRaises inst act with
            | none =>
                refine ⟨{ status := "success", error := none, action := some act,
                          params := some (params.getD { text := none, clear := none, value := none }),
                          timestamp := env.now }, ?_⟩
                simp [hsup, hra]
            | some e =>
                refine ⟨{ status := "error", error := some e, action := none,
                          params := none, timestamp := env.now }, ?_⟩
                simp [hsup, hra]
          · refine ⟨{ status := "error",
                      error := some ("Action " ++ act ++ " not supported for sensor "
                        ++ sid ++ " of type " ++ c.sensor_type),
                      action := none, params := none, timestamp := env.now }, ?_⟩
            simp only [Bool.not_eq_true] at hsup
            simp [hsup]
  · have hmem' : st.sensors.contains sid = false := by simpa using hmem
    rw [if_pos (by simp [hmem'])]
    exact ⟨_, rfl⟩

theorem get_sensor_status_ok (env : SensorEnv) (st : SensorManager)
    (sensor_id : Option String) (hkey : st.sensor_configs.contains "" = false) :
    ∃ r, st.get_sensor_status env sensor_id = Except.ok r := by
  unfold SensorManager.get_sensor_status
  by_cases ht : truthyStr sensor_id = true
  · rw [if_pos ht]
    show ∃ r,
      (match st.sensor_configs.lookup (sensor_id.getD "") with
        | none =>
            Except.ok (StatusResult.notFound
              ("Sensor " ++ sensor_id.getD "" ++ " not found") env.now)
        | some config =>
            Except.ok (StatusResult.single (statusEntry env st (sensor_id.getD "") config))) =
        Except.ok r
    cases hl : st.sensor_configs.lookup (sensor_id.getD "") with
    | none => exact ⟨_, rfl⟩
    | some config => exact ⟨_, rfl⟩
  · rw [if_neg ht, if_neg (by simp [hkey])]
    exact ⟨_, rfl⟩

def cmdFly : Command :=
  { action := some "fly", sensor_id := none, params := none, config := none }

/-- C8: `process_command` never raises — on a registry satisfying the
invariant (and with no empty-string sensor id, which would make the Python
status walk recurse without bound) every dispatched operation returns a
value and the outer try/except needs nothing to catch; the actions `read`,
`execute`, `status` and `configure` are mapped to the corresponding registry
operations, and any other action yields a structured dictionary with
`status = "error"` and an error message that names the unknown action. -/
theorem C8_process_command_dispatch (env : SensorEnv) (st : SensorManager)
    (cmd : Command) (hinv : st.Inv)
    (hkey : st.sensor_configs.contains "" = false) :
    (cmd.action ≠ some "read" → cmd.action ≠ some "execute" →
     cmd.action ≠ some "status" → cmd.action ≠ some "configure" →
      st.process_command env cmd =
        (CommandResult.unknown cmd.action
          ("Unknown action: " ++ pyStr cmd.action ++ ". Supported actions: read, execute, status")
          env.now, st, []) ∧
      ((st.process_command env cmd).1).statusField = some "error" ∧
      ∃ pre post, ((st.process_command env cmd).1).errorField =
        some (pre ++ pyStr cmd.action ++ post)) ∧
    (cmd.action = some "read" → truthyStr cmd.sensor_id = true →
      ∃ r, st.read_sensor env (cmd.sensor_id.getD "") = Except.ok r ∧
        st.process_command env cmd =
          (CommandResult.readOne (cmd.sensor_id.getD "") r env.now, st, [])) ∧
    (cmd.action = some "read" → truthyStr cmd.sensor_id = false →
      ∃ rs, st.read_all_sensors env = Except.ok rs ∧
        st.process_command env cmd =
          (CommandResult.readAll rs rs.length env.now, st, [])) ∧
    (cmd.action = some "execute" → truthyStr cmd.sensor_id = false →
      st.process_command env cmd = (CommandResult.executeMissingId env.now, st, []) ∧
      ((st.process_command env cmd).1).statusField = some "error") ∧
    (cmd.action = some "execute" → truthyStr cmd.sensor_id = true →
      ∃ r, st.execute_sensor_action env (cmd.sensor_id.getD "")
          ((cmd.params.getD { execute_action := none, execute_params := none }).execute_action.getD "read")
          (cmd.params.getD { execute_action := none, execute_params := none }).execute_params =
            Except.ok r ∧
        st.process_command env cmd =
          (CommandResult.executeRes (cmd.sensor_id.getD "")
            ((cmd.params.getD { execute_action := none, execute_params := none }).execute_action.getD "read")
            r env.now, st, [])) ∧
    (cmd.action = some "status" →
      ∃ r, st.get_sensor_status env cmd.sensor_id = Except.ok r ∧
        st.process_command env cmd =
          (CommandResult.statusRes cmd.sensor_id r env.now, st, [])) ∧
    (cmd.action = some "configure" → truthyStr cmd.sensor_id = false →
      st.process_command env cmd = (CommandResult.configureMissingId env.now, st, []) ∧
      ((st.process_command env cmd).1).statusField = some "error") ∧
    (cmd.action = some "configure" → truthyStr cmd.sensor_id = true →
      st.process_command env cmd =
        (CommandResult.configureRes (cmd.sensor_id.getD "")
          ((st.configure_sensor env (cmd.sensor_id.getD "")
            (cmd.config.getD { sensor_type := none, inputs := none, enabled := none, alias_ := none })).1)
          env.now,
         (st.configure_sensor env (cmd.sensor_id.getD "")
           (cmd.config.getD { sensor_type := none, inputs := none, enabled := none, alias_ := none })).2.1,
         (st.configure_sensor env (cmd.sensor_id.getD "")
           (cmd.config.getD { sensor_type := none, inputs := none, enabled := none, alias_ := none })).2.2)) := by
  refine ⟨?_, ?_, ?_, ?_, ?_, ?_, ?_, ?_⟩
  · intro h1 h2 h3 h4
    have heq : st.process_command env cmd =
        (CommandResult.unknown cmd.action
          ("Unknown action: " ++ pyStr cmd.action ++ ". Supported actions: read, execute, status")
          env.now, st, []) := by
      unfold SensorManager.process_command
      rw [if_neg h1, if_neg h2, if_neg h3, if_neg h4]
    exact ⟨heq, by rw [heq]; rfl, ⟨"Unknown action: ",
      ". Supported actions: read, execute, status", by rw [heq]; rfl⟩⟩
  · intro ha ht
    obtain ⟨r, hr⟩ := read_sensor_ok env st (cmd.sensor_id.getD "") hinv
    refine ⟨r, hr, ?_⟩
    unfold SensorManager.process_command
    simp [ha, ht, hr]
  · intro ha ht
    obtain ⟨rs, hrs⟩ := read_all_sensors_ok env st hinv
    refine ⟨rs, hrs, ?_⟩
    unfold SensorManager.process_command
    simp [ha, ht, hrs]
  · intro ha ht
    have heq : st.process_command env cmd =
        (CommandResult.executeMissingId env.now, st, []) := by
      unfold SensorManager.process_command
      simp [ha, ht]
    exact ⟨heq, by rw [heq]; rfl⟩
  · intro ha ht
    obtain ⟨r, hr⟩ := execute_sensor_action_ok env st (cmd.sensor_id.getD "")
      ((cmd.params.getD { execute_action := none, execute_params := none }).execute_action.getD "read")
      (cmd.params.getD { execute_action := none, execute_params := none }).execute_params hinv
    refine ⟨r, hr, ?_⟩
    unfold SensorManager.process_command
    simp [ha, ht, hr]
  · intro ha
    obtain ⟨r, hr⟩ := get_sensor_status_ok env st cmd.sensor_id hkey
    refine ⟨r, hr, ?_⟩
    unfold SensorManager.process_command
    simp [ha, hr]
  · intro ha ht
    have heq : st.process_command env cmd =
        (CommandResult.configureMissingId env.now, st, []) := by
      unfold SensorManager.process_command
      simp [ha, ht]
    exact ⟨heq, by rw [heq]; rfl⟩
  · intro ha ht
    unfold SensorManager.process_command
    simp [ha, ht]

/-- Witness for C8: a concrete read command is mapped to `read_sensor`, and
a concrete unknown action yields the structured error naming it. -/
theorem C8_process_command_dispatch_witness :
    stLiveS1.Inv ∧
    stLiveS1.sensor_configs.contains "" = false ∧
    (∃ r, stLiveS1.read_sensor testEnv "s1" = Except.ok r ∧
      stLiveS1.process_command testEnv cmdReadS1 =
        (CommandResult.readOne "s1" r testEnv.now, stLiveS1, [])) ∧
    stLiveS1.process_command testEnv cmdFly =
      (CommandResult.unknown (some "fly")
        ("Unknown action: " ++ pyStr (some "fly") ++ ". Supported actions: read, execute, status")
        testEnv.now, stLiveS1, []) :=
  ⟨by decide, by decide,
   (C8_process_command_dispatch testEnv stLiveS1 cmdReadS1 (by decide) (by decide)).2.1
     rfl (by decide),
   ((C8_process_command_dispatch testEnv stLiveS1 cmdFly (by decide) (by decide)).1
     (by decide) (by decide) (by decide) (by decide)).1⟩

/-- C1: for every authenticated envelope that carries a sensor command
together with `update_rules` and/or `update_device` flags (whose refreshes
return normally), the dispatch core performs the requested refreshes, then
publishes the signed sensor-command result to `response_topic` when one is
declared, and returns without ever invoking the user-registered callback. -/
theorem C1_sensor_command_precedence (cenv : ClientEnv) (senv : SensorEnv)
    (st : SensorManager) (ex : DeviceExec) (cmd : Command)
    (hauth : (cenv.validExpiry && cenv.checkAuth) = true)
    (hsc : ex.sensor_command = some cmd)
    (hflags : ex.update_rules = true ∨ ex.update_device = true)
    (hr1 : cenv.updateRulesRaises = none)
    (hr2 : cenv.updateDeviceRaises = none) :
    CyberflyClient.on_received cenv senv st ex =
      ({ updatedRules := ex.update_rules, updatedDevice := ex.update_device,
         sensorProcessed := true, callerInvoked := false,
         emissions :=
           if truthyStr ex.response_topic then
             [(ex.response_topic.getD "",
               make_cmd (ReplyPayload.sensorResult ((st.process_command senv cmd).1))
                 cenv.keyPair)]
           else [],
         warnings := 0, errorsLogged := 0 },
       (st.process_command senv cmd).2.1) := by
  unfold CyberflyClient.on_received
  rw [if_pos hauth]
  simp only [hr1, hr2, ite_self, hsc]
  by_cases htop : truthyStr ex.response_topic = true <;>
    simp [htop, emptyTrace]

/-- Witness for C1: a concrete authenticated envelope with both a refresh
flag and a sensor command. -/
theorem C1_sensor_command_precedence_witness :
    (cenvOk.validExpiry && cenvOk.checkAuth) = true ∧
    exSensor.sensor_command = some cmdReadS1 ∧
    (exSensor.update_rules = true ∨ exSensor.update_device = true) ∧
    CyberflyClient.on_received cenvOk testEnv stLiveS1 exSensor =
      ({ updatedRules := exSensor.update_rules, updatedDevice := exSensor.update_device,
         sensorProcessed := true, callerInvoked := false,
         emissions :=
           if truthyStr exSensor.response_topic then
             [(exSensor.response_topic.getD "",
               make_cmd (ReplyPayload.sensorResult ((stLiveS1.process_command testEnv cmdReadS1).1))
                 cenvOk.keyPair)]
           else [],
         warnings := 0, errorsLogged := 0 },
       (stLiveS1.process_command testEnv cmdReadS1).2.1) :=
  ⟨by decide, by decide, Or.inl (by decide),
   C1_sensor_command_precedence cenvOk testEnv stLiveS1 exSensor cmdReadS1
     (by decide) (by decide) (Or.inl (by decide)) (by decide) (by decide)⟩

/-- C3: for every authenticated envelope whose handler (rule refresh, device
refresh or user callback) raises, `on_received` catches the exception, emits
exactly one signed `{info: "error", error: msg}` reply to `response_topic`
when one is declared (and none otherwise), logs the error once, leaves the
registry untouched and does not propagate the exception (the embedding is a
total function); and for every envelope, authenticated or not, at most one
reply is emitted. -/
theorem C3_fault_isolation (cenv : ClientEnv) (senv : SensorEnv)
    (st : SensorManager) (ex : DeviceExec) :
    (∀ e, (cenv.validExpiry && cenv.checkAuth) = true →
      firstRaise cenv ex = some e →
      (CyberflyClient.on_received cenv senv st ex).1.emissions =
        (if truthyStr ex.response_topic then
          [(ex.response_topic.getD "", make_cmd (ReplyPayload.errorInfo e) cenv.keyPair)]
         else []) ∧
      (CyberflyClient.on_received cenv senv st ex).1.errorsLogged = 1 ∧
      (CyberflyClient.on_received cenv senv st ex).2 = st) ∧
    (CyberflyClient.on_received cenv senv st ex).1.emissions.length ≤ 1 := by
  constructor
  · intro e hauth hf
    unfold firstRaise at hf
    unfold CyberflyClient.on_received
    rw [if_pos hauth]
    cases h1 : (if ex.update_rules then cenv.updateRulesRaises else none) with
    | some e1 =>
        rw [h1] at hf
        simp only [Option.some.injEq] at hf
        subst hf
        by_cases htop : truthyStr ex.response_topic = true <;>
          simp [handleExc, emptyTrace, htop]
    | none =>
        rw [h1] at hf
        simp only [] at hf
        cases h2 : (if ex.update_device then cenv.updateDeviceRaises else none) with
        | some e2 =>
            rw [h2] at hf
            simp only [Option.some.injEq] at hf
            subst hf
            by_cases htop : truthyStr ex.response_topic = true <;>
              simp [handleExc, emptyTrace, htop]
        | none =>
            rw [h2] at hf
            cases hsc : ex.sensor_command with
            | some cmd => rw [hsc] at hf; simp at hf
            | none =>
                rw [hsc] at hf
                simp only [] at hf
                rw [hf]
                by_cases htop : truthyStr ex.response_topic = true <;>
                  simp [handleExc, emptyTrace, htop]
  · unfold CyberflyClient.on_received
    by_cases hauth : (cenv.validExpiry && cenv.checkAuth) = true
    · rw [if_pos hauth]
      cases h1 : (if ex.update_rules then cenv.updateRulesRaises else none) with
      | some e1 =>
          by_cases htop : truthyStr ex.response_topic = true <;>
            simp [handleExc, emptyTrace, htop]
      | none =>
          cases h2 : (if ex.update_device then cenv.updateDeviceRaises else none) with
          | some e2 =>
              by_cases htop : truthyStr ex.response_topic = true <;>
                simp [handleExc, emptyTrace, htop]
          | none =>
              cases hsc : ex.sensor_command with
              | some cmd =>
                  by_cases htop : truthyStr ex.response_topic = true <;>
                    simp [emptyTrace, htop]
              | none =>
                  cases hcr : cenv.callerRaises with
                  | some e =>
                      by_cases htop : truthyStr ex.response_topic = true <;>
                        simp [handleExc, emptyTrace, htop]
                  | none =>
                      by_cases htop : truthyStr ex.response_topic = true <;>
                        simp [emptyTrace, htop]
    · rw [if_neg hauth]
      simp [emptyTrace]

/-- Witness for C3: a concrete authenticated envelope whose user callback
raises. -/
theorem C3_fault_isolation_witness :
    (cenvCallerBoom.validExpiry && cenvCallerBoom.checkAuth) = true ∧
    firstRaise cenvCallerBoom exPlain = some "boom" ∧
    (CyberflyClient.on_received cenvCallerBoom testEnv stEmpty exPlain).1.emissions =
      (if truthyStr exPlain.response_topic then
        [(exPlain.response_topic.getD "",
          make_cmd (ReplyPayload.errorInfo "boom") cenvCallerBoom.keyPair)]
       else []) ∧
    (CyberflyClient.on_received cenvCallerBoom testEnv stEmpty exPlain).1.emissions.length ≤ 1 :=
  ⟨by decide, by decide,
   ((C3_fault_isolation cenvCallerBoom testEnv stEmpty exPlain).1 "boom"
     (by decide) (by decide)).1,
   (C3_fault_isolation cenvCallerBoom testEnv stEmpty exPlain).2⟩

end Cyberfly

